import Mathlib

/-!
Verification of the gilead-couriers dispatch handlers.

The repository is a collection of serverless HTTP handlers.  Each handler is a
pure function of its parsed request (plus ambient clock data and environment
configuration) to a response; we embed the arithmetic and control flow of each
handler shallowly.  JavaScript numbers are modelled as exact rationals (`ℚ`);
`Math.round` / `Math.ceil` are modelled by their exact counterparts on `ℚ`.
External collaborators (Stripe's signature verification, the Telegram and
Make.com HTTP calls, the system clock, `Date` parsing) are passed in as
explicit parameters, exactly at the points where the source consults them.
-/

namespace Gilead

/-- JavaScript `Math.round`: round half toward positive infinity,
`Math.round(x) = ⌊x + 0.5⌋`. -/
def jsRound (q : ℚ) : ℤ := ⌊q + 1/2⌋

/-- JavaScript `Math.ceil`. -/
def jsCeil (q : ℚ) : ℤ := ⌈q⌉

/-- Drop leading whitespace characters from a character list. -/
def dropLeadingWS : List Char → List Char
  | [] => []
  | c :: cs => if c.isWhitespace then dropLeadingWS cs else c :: cs

/-- JavaScript `String.prototype.trim()`: strip leading and trailing
whitespace (drop leading, then drop trailing by reversing). -/
def jsTrim (s : String) : String :=
  ⟨(dropLeadingWS ((dropLeadingWS s.data).reverse)).reverse⟩

/-! ## PR-V1.0 pricing (`src/unnamed/part_004`, third document) -/

/-- Source: `BASE_DISTANCE`: the first 20 miles are covered by the base fee. -/
def BASE_DISTANCE : ℚ := 20

/-- Source: `BASE_PRICE`: £90 base. -/
def BASE_PRICE : ℚ := 90

/-- Source: `PER_MILE_RATE`: £1.80 per mile beyond 20 miles. -/
def PER_MILE_RATE : ℚ := 1.80

/-- PR-V1.0 raw (pre-rounding) price:
`let rawPrice = BASE_PRICE; if (milesNum > BASE_DISTANCE) rawPrice += (milesNum - BASE_DISTANCE) * PER_MILE_RATE`. -/
def rawPriceV10 (milesNum : ℚ) : ℚ :=
  if milesNum > BASE_DISTANCE then BASE_PRICE + (milesNum - BASE_DISTANCE) * PER_MILE_RATE
  else BASE_PRICE

/-- Source: `roundPrice` from PR-V1.0: nearest £5 below £100, nearest £10 from £100 up. -/
def roundPrice (value : ℚ) : ℚ :=
  if value < 100 then (jsRound (value / 5) : ℚ) * 5
  else (jsRound (value / 10) : ℚ) * 10

/-- PR-V1.0 final price: `finalPrice = Math.max(roundPrice(rawPrice), BASE_PRICE)`. -/
def finalPriceV10 (milesNum : ℚ) : ℚ :=
  max (roundPrice (rawPriceV10 milesNum)) BASE_PRICE

/-! ## PR-V1.1 pricing (`src/api/create-checkout-session-v2.js`) -/

/-- Source: `baseWithin20 = 90`. -/
def baseWithin20 : ℚ := 90

/-- Source: `perMileOver20 = 1.8`. -/
def perMileOver20 : ℚ := 1.8

/-- PR-V1.1 base before rounding:
`milesNum <= 20 ? baseWithin20 : baseWithin20 + ((milesNum - 20) * perMileOver20)`. -/
def baseRawV11 (milesNum : ℚ) : ℚ :=
  if milesNum ≤ 20 then baseWithin20 else baseWithin20 + (milesNum - 20) * perMileOver20

/-- PR-V1.1 base after rounding to the nearest £5 and clamping to the £90 minimum:
`baseCalculated = Math.round(baseCalculated / 5) * 5; baseCalculated = Math.max(baseCalculated, baseWithin20)`. -/
def baseCalculatedV11 (milesNum : ℚ) : ℚ :=
  max ((jsRound (baseRawV11 milesNum / 5) : ℚ) * 5) baseWithin20

/-- Source: `UPLIFT_AFTER_1700 = 15`. -/
def UPLIFT_AFTER_1700 : ℚ := 15

/-- Source: `UPLIFT_WEEKEND = 20`. -/
def UPLIFT_WEEKEND : ℚ := 20

/-- Source: `UPLIFT_URGENT = 25`. -/
def UPLIFT_URGENT : ℚ := 25

/-- Source: `isAfter1700 = jobHourUTC >= 17`. -/
def isAfter1700 (jobHourUTC : ℕ) : Bool := 17 ≤ jobHourUTC

/-- Source: `isWeekend = (dayOfWeekUTC === 0 || dayOfWeekUTC === 6)` (0 = Sunday, 6 = Saturday). -/
def isWeekendDay (dayOfWeekUTC : ℕ) : Bool := dayOfWeekUTC == 0 || dayOfWeekUTC == 6

/-- PR-V1.1 urgency: `diffDays <= 1` where `diffDays` is the whole-day difference
between the job's UTC day and the start of today (UTC). -/
def isUrgentV11 (diffDays : ℤ) : Bool := diffDays ≤ 1

/-- PR-V1.1 uplift stacking:
`(isAfter1700 ? 15 : 0) + (isWeekend ? 20 : 0) + (isUrgent ? 25 : 0)`. -/
def plusUpliftV11 (jobHourUTC dayOfWeekUTC : ℕ) (diffDays : ℤ) : ℚ :=
  (if isAfter1700 jobHourUTC then UPLIFT_AFTER_1700 else 0) +
  (if isWeekendDay dayOfWeekUTC then UPLIFT_WEEKEND else 0) +
  (if isUrgentV11 diffDays then UPLIFT_URGENT else 0)

/-- PR-V1.1 final charge: `calculated = baseCalculated + plusUplift`
(the uplift is intentionally not rounded). -/
def calculatedV11 (milesNum : ℚ) (jobHourUTC dayOfWeekUTC : ℕ) (diffDays : ℤ) : ℚ :=
  baseCalculatedV11 milesNum + plusUpliftV11 jobHourUTC dayOfWeekUTC diffDays

/-- Spec-side reading of the PR-V1.1 uplift rule, for comparison with the
source's `plusUplift`: the sum of exactly those uplift amounts whose
conditions hold on the job date/time. -/
def specUpliftSum (jobHourUTC dayOfWeekUTC : ℕ) (diffDays : ℤ) : ℚ :=
  (([(isAfter1700 jobHourUTC, UPLIFT_AFTER_1700),
     (isWeekendDay dayOfWeekUTC, UPLIFT_WEEKEND),
     (isUrgentV11 diffDays, UPLIFT_URGENT)].filter fun p => p.1).map fun p => p.2).sum

/-! ## Requests and handler outcomes

A checkout request, after JSON body destructuring.  String fields model the
destructured body fields (a JS-falsy missing field becomes `""`, matching the
`= ''` defaults in the source).  The results of the two external operations the
handlers perform on the request — `Number(miles)` (`none` when the result is
not a finite positive candidate, i.e. `NaN`/`Infinity`) and
`parseDateTimeUTC(whenDate, whenTime)` — are carried as `milesParsed` and
`dateValid`/`jobHourUTC`/`dayOfWeekUTC`, and the clock-relative values
`diffDays` (PR-V1.1 urgency) and `diffMinutes` (premium/profiles urgency)
are carried explicitly. -/
structure Req where
  company : String
  industry : String
  serviceType : String
  immediateDelivery : Bool
  pickup : String
  dropoff : String
  miles : String
  email : String
  whenDate : String
  whenTime : String
  milesParsed : Option ℚ
  dateValid : Bool
  jobHourUTC : ℕ
  dayOfWeekUTC : ℕ
  diffDays : ℤ
  diffMinutes : ℚ

/-- Outcome of a checkout handler, one constructor per distinct response the
source can produce after method dispatch: the three 400-family validation
errors, the 400 manual-quote rejection (carrying the profile's ceiling), and
the 200 success carrying the computed price (the Stripe session is created
only on this path). -/
inductive HandlerResult where
  | missingFields
  | invalidMiles
  | manualQuote (ceiling : ℚ)
  | invalidDate
  | ok (price : ℚ)
deriving DecidableEq, Repr

/-- HTTP status of a `HandlerResult`: every validation / manual-quote branch
responds 400, the success branch responds 200. -/
def statusOf : HandlerResult → ℕ
  | .missingFields => 400
  | .invalidMiles => 400
  | .manualQuote _ => 400
  | .invalidDate => 400
  | .ok _ => 200

/-- PR-V1.0 required-field check (`!pickup || !dropoff || !email || !whenDate || !whenTime`;
note `miles` is validated separately by the numeric check). -/
def missingV10 (r : Req) : Bool :=
  r.pickup == "" || r.dropoff == "" || r.email == "" || r.whenDate == "" || r.whenTime == ""

/-- Required-field check shared by PR-V1.1, PR-PREMIUM-V1.0 and the profile
handlers: `!company || !industry || !pickup || !dropoff || !miles || !email || !whenDate || !whenTime`. -/
def missingV11 (r : Req) : Bool :=
  r.company == "" || r.industry == "" || r.pickup == "" || r.dropoff == "" ||
  r.miles == "" || r.email == "" || r.whenDate == "" || r.whenTime == ""

/-- PR-V1.0 handler (`src/unnamed/part_004`, third document): validation, the
`Number.isFinite`/`> 0` miles check, then pricing; there is no manual-quote
check and no date-validity gate before the session is created. -/
def v10Handler (r : Req) : HandlerResult :=
  if missingV10 r then .missingFields
  else
    match r.milesParsed with
    | none => .invalidMiles
    | some m =>
      if m ≤ 0 then .invalidMiles
      else .ok (finalPriceV10 m)

/-- PR-V1.1 handler (`src/api/create-checkout-session-v2.js`): validation,
miles check, date parse gate, then base + uplift pricing. -/
def v11Handler (r : Req) : HandlerResult :=
  if missingV11 r then .missingFields
  else
    match r.milesParsed with
    | none => .invalidMiles
    | some m =>
      if m ≤ 0 then .invalidMiles
      else if !r.dateValid then .invalidDate
      else .ok (calculatedV11 m r.jobHourUTC r.dayOfWeekUTC r.diffDays)

/-! ## PR-PREMIUM-V1.0 (`src/api/stripe/create-checkout-session-v2.js`) -/

/-- Source: `BASE_WITHIN_20 = 120`. -/
def BASE_WITHIN_20 : ℚ := 120

/-- Source: `PER_MILE_OVER_20 = 3.5`. -/
def PER_MILE_OVER_20 : ℚ := 3.5

/-- Source: `MANUAL_QUOTE_MILES = 180`. -/
def MANUAL_QUOTE_MILES : ℚ := 180

/-- Source: `URGENCY_MINUTES = 180` (urgent below 3 hours notice). -/
def URGENCY_MINUTES : ℚ := 180

/-- Premium urgency test: `diffMinutes >= 0 && diffMinutes < URGENCY_MINUTES`. -/
def isUrgentPremium (diffMinutes : ℚ) : Bool := 0 ≤ diffMinutes && diffMinutes < URGENCY_MINUTES

/-- Premium per-mile distance component: `Math.max(0, milesNum - 20) * 3.5`. -/
def pricingDistancePremium (milesNum : ℚ) : ℚ := max 0 (milesNum - 20) * PER_MILE_OVER_20

/-- Premium distance uplift bracket: 80–119 miles +£50, 120–179 miles +£90. -/
def pricingDistanceUpliftPremium (milesNum : ℚ) : ℚ :=
  if 80 ≤ milesNum ∧ milesNum ≤ 119 then 50
  else if 120 ≤ milesNum ∧ milesNum ≤ 179 then 90
  else 0

/-- Source: `roundToNearest(amount, nearest) = Math.round(amount / n) * n` where
`n = Number(nearest) || 1` (a JS-falsy granularity of 0 falls back to 1). -/
def roundToNearest (amount nearest : ℚ) : ℚ :=
  let n := if nearest = 0 then 1 else nearest
  (jsRound (amount / n) : ℚ) * n

/-- Premium total before rounding: base + distance + distance-uplift +
urgency(+£40) + after-17:00(+£35) + weekend(+£60) + bank-holiday(+£90, with the
bank-holiday flag hard-coded `false` and overriding the weekend uplift). -/
def premiumTotalBeforeRounding (milesNum : ℚ) (jobHourUTC dayOfWeekUTC : ℕ)
    (diffMinutes : ℚ) : ℚ :=
  let isBankHoliday := false
  BASE_WITHIN_20 + pricingDistancePremium milesNum + pricingDistanceUpliftPremium milesNum +
  (if isUrgentPremium diffMinutes then 40 else 0) +
  (if isAfter1700 jobHourUTC then 35 else 0) +
  (if !isBankHoliday && isWeekendDay dayOfWeekUTC then 60 else 0) +
  (if isBankHoliday then 90 else 0)

/-- Premium calculated price: total rounded to the nearest £5. -/
def premiumCalculated (milesNum : ℚ) (jobHourUTC dayOfWeekUTC : ℕ) (diffMinutes : ℚ) : ℚ :=
  roundToNearest (premiumTotalBeforeRounding milesNum jobHourUTC dayOfWeekUTC diffMinutes) 5

/-- Premium handler: validation, miles check, manual-quote rejection at
`milesNum >= 180` (before any pricing), date gate, then pricing. -/
def premiumHandler (r : Req) : HandlerResult :=
  if missingV11 r then .missingFields
  else
    match r.milesParsed with
    | none => .invalidMiles
    | some m =>
      if m ≤ 0 then .invalidMiles
      else if MANUAL_QUOTE_MILES ≤ m then .manualQuote MANUAL_QUOTE_MILES
      else if !r.dateValid then .invalidDate
      else .ok (premiumCalculated m r.jobHourUTC r.dayOfWeekUTC r.diffMinutes)

/-! ## Flat-fee variant (`src/unnamed/part_000`): £90 regardless of distance -/

/-- Flat-fee handler: only pickup/dropoff/email are required, and every
accepted request is priced at `amountPence = 9000`, i.e. £90, regardless of
miles. -/
def flatHandler (r : Req) : HandlerResult :=
  if r.pickup == "" || r.dropoff == "" || r.email == "" then .missingFields
  else .ok 90

/-! ## Google-Routes variant (`src/api/checkout/create-session.js`) -/

/-- Source: `priceForMiles`: £90 at or below 20 miles, else £90 + £1.80 per mile over
20 (`over = Math.max(0, miles - 20)`). -/
def priceForMiles (miles : ℚ) : ℚ :=
  if miles ≤ 20 then 90 else 90 + max 0 (miles - 20) * 1.80

/-- Source: `timeSurchargeFactor`: hours 0–8 → ×1.50, hours 18–23 → ×1.30, else ×1. -/
def timeSurchargeFactor (hour : ℕ) : ℚ :=
  if hour < 9 then 1.50 else if 18 ≤ hour then 1.30 else 1.00

/-- Source: `isWeekend` weekend factor ×1.25 (Sunday = 0, Saturday = 6). -/
def weekendFactor (day : ℕ) : ℚ := if day == 0 || day == 6 then 1.25 else 1.0

/-- Source: `roundUp(value, step) = Math.ceil(value / s) * s` with `s = step || 1`. -/
def roundUp (value step : ℚ) : ℚ :=
  let s := if step = 0 then 1 else step
  (jsCeil (value / s) : ℚ) * s

/-- Google-Routes variant total: `roundUp(base * surchargeFactor * weekendFactor, 1)`
— round UP to the nearest whole £1. -/
def createSessionTotal (miles : ℚ) (hour day : ℕ) : ℚ :=
  roundUp (priceForMiles miles * timeSurchargeFactor hour * weekendFactor day) 1

/-! ## Industry pricing profiles (`src/unnamed/part_004`, first and second documents) -/

/-- A distance-uplift bracket `{ min, max, add }`. -/
structure Bracket where
  min : ℚ
  max : ℚ
  add : ℚ
deriving DecidableEq, Repr

/-- A PR-PROFILES-V2.0 pricing profile (the V2.0 table has no `immediateAdd`). -/
structure ProfileV2 where
  baseUpTo20 : ℚ
  perMileOver20 : ℚ
  uplift : List Bracket
  manualQuoteMiles : ℚ
  urgencyMinutes : ℚ
  urgencyAdd : ℚ
  after17Add : ℚ
  weekendAdd : ℚ
  bankHolidayAdd : ℚ
  rounding : ℚ
deriving DecidableEq, Repr

/-- A PR-PROFILES-V3.0 pricing profile (adds `immediateAdd`). -/
structure ProfileV3 where
  baseUpTo20 : ℚ
  perMileOver20 : ℚ
  uplift : List Bracket
  manualQuoteMiles : ℚ
  urgencyMinutes : ℚ
  urgencyAdd : ℚ
  after17Add : ℚ
  weekendAdd : ℚ
  bankHolidayAdd : ℚ
  immediateAdd : ℚ
  rounding : ℚ
deriving DecidableEq, Repr

/-- V2.0 `BASE_PRICING` (default / other — premium retail logic). -/
def BASE_PRICING_V2 : ProfileV2 :=
  ⟨120, 3.5, [⟨80, 119, 50⟩, ⟨120, 179, 90⟩], 180, 180, 40, 35, 60, 90, 5⟩

/-- V2.0 `INDUSTRY_PRICING` lookup: `key` is the trimmed industry name, `rsd`
selects the `return_same_day` entry; `none` models an absent pack or a `null`
entry (only `Other.oneway` is `null`). -/
def industryTableV2 (key : String) (rsd : Bool) : Option ProfileV2 :=
  if key == "Aerospace" then
    some (if rsd then ⟨120, 1.30, [⟨340, 520, 60⟩], 520, 180, 25, 25, 50, 80, 10⟩
          else ⟨120, 2.25, [⟨120, 210, 20⟩], 260, 180, 25, 25, 50, 80, 10⟩)
  else if key == "Defence" then
    some (if rsd then ⟨120, 1.85, [⟨260, 520, 40⟩], 480, 180, 30, 30, 55, 85, 10⟩
          else ⟨120, 2.35, [⟨80, 119, 40⟩, ⟨120, 179, 70⟩], 240, 180, 30, 30, 55, 85, 10⟩)
  else if key == "Engineering" then
    some (if rsd then ⟨120, 1.95, [⟨240, 480, 35⟩], 440, 180, 30, 30, 55, 85, 10⟩
          else ⟨120, 2.5, [⟨80, 119, 45⟩, ⟨120, 179, 80⟩], 220, 180, 30, 30, 55, 85, 10⟩)
  else if key == "Government / Public Sector" then
    some (if rsd then ⟨120, 1.85, [⟨240, 480, 25⟩], 440, 180, 25, 25, 50, 80, 10⟩
          else ⟨120, 2.4, [⟨80, 119, 40⟩, ⟨120, 179, 70⟩], 220, 180, 25, 25, 50, 80, 10⟩)
  else if key == "Legal" then
    some (if rsd then ⟨120, 2.85, [⟨240, 480, 80⟩], 360, 180, 55, 45, 80, 110, 5⟩
          else ⟨120, 3.5, [⟨80, 119, 50⟩, ⟨120, 179, 90⟩], 180, 180, 45, 40, 70, 95, 5⟩)
  else if key == "Medical" then
    some (if rsd then ⟨120, 2.65, [⟨240, 520, 70⟩], 400, 180, 50, 40, 80, 120, 5⟩
          else ⟨120, 3.1, [⟨80, 119, 45⟩, ⟨120, 179, 85⟩], 200, 180, 40, 35, 70, 100, 5⟩)
  else if key == "Financial Services" then
    some (if rsd then ⟨120, 2.70, [⟨240, 520, 75⟩], 400, 180, 50, 45, 75, 110, 5⟩
          else ⟨120, 3.25, [⟨80, 119, 50⟩, ⟨120, 179, 90⟩], 200, 180, 40, 40, 65, 95, 5⟩)
  else if key == "Other" then
    if rsd then some ⟨120, 2.35, [⟨240, 480, 50⟩], 360, 180, 40, 35, 65, 95, 5⟩
    else none
  else none

/-- V2.0 `getPricingProfile`: trim the industry key, select the service side,
and fall back to `BASE_PRICING` when the pack or entry is missing (every
override defines all fields, so the `{...BASE, ...override}` merge equals the
override). `stSafe` is the already-trimmed service type. -/
def getPricingProfileV2 (industryKey stSafe : String) : ProfileV2 :=
  (industryTableV2 (jsTrim industryKey) (stSafe == "return_same_day")).getD BASE_PRICING_V2

/-- V3.0 `BASE_PRICING`. -/
def BASE_PRICING_V3 : ProfileV3 :=
  ⟨120, 2.75, [], 240, 180, 30, 30, 55, 85, 45, 10⟩

/-- V3.0 `INDUSTRY_PRICING` lookup (every industry defines both sides;
`NO_DISTANCE_UPLIFT` is the empty bracket list). -/
def industryTableV3 (key : String) (rsd : Bool) : Option ProfileV3 :=
  if key == "Aerospace" then
    some (if rsd then ⟨120, 1.30, [⟨340, 520, 60⟩], 520, 180, 25, 25, 50, 80, 30, 10⟩
          else ⟨120, 2.25, [⟨80, 119, 35⟩, ⟨120, 210, 20⟩, ⟨211, 259, 105⟩], 260, 180, 25, 25, 50, 80, 30, 10⟩)
  else if key == "Legal" then
    some (if rsd then ⟨120, 2.00, [], 240, 180, 40, 35, 60, 90, 60, 10⟩
          else ⟨120, 2.65, [], 240, 180, 40, 35, 60, 90, 60, 10⟩)
  else if key == "Medical" then
    some (if rsd then ⟨120, 2.00, [], 240, 180, 40, 35, 60, 90, 60, 10⟩
          else ⟨120, 2.65, [], 240, 180, 40, 35, 60, 90, 60, 10⟩)
  else if key == "Financial Services" then
    some (if rsd then ⟨120, 2.00, [], 240, 180, 40, 35, 60, 90, 60, 10⟩
          else ⟨120, 2.65, [], 240, 180, 40, 35, 60, 90, 60, 10⟩)
  else if key == "Defence" then
    some (if rsd then ⟨120, 2.00, [], 240, 180, 40, 35, 60, 90, 60, 10⟩
          else ⟨120, 2.65, [], 240, 180, 40, 35, 60, 90, 60, 10⟩)
  else if key == "Engineering" then
    some (if rsd then ⟨120, 1.85, [], 220, 180, 30, 30, 55, 85, 45, 10⟩
          else ⟨120, 2.50, [], 220, 180, 30, 30, 55, 85, 45, 10⟩)
  else if key == "Government / Public Sector" then
    some (if rsd then ⟨120, 1.85, [], 220, 180, 30, 30, 55, 85, 45, 10⟩
          else ⟨120, 2.50, [], 220, 180, 30, 30, 55, 85, 45, 10⟩)
  else if key == "Other" then
    some (if rsd then ⟨120, 1.85, [], 220, 180, 30, 30, 55, 85, 45, 10⟩
          else ⟨120, 2.50, [], 220, 180, 30, 30, 55, 85, 45, 10⟩)
  else none

/-- V3.0 `getPricingProfile`. -/
def getPricingProfileV3 (industryKey stSafe : String) : ProfileV3 :=
  (industryTableV3 (jsTrim industryKey) (stSafe == "return_same_day")).getD BASE_PRICING_V3

/-- Source: `serviceTypeSafe = String(serviceType || 'oneway').trim()`. -/
def serviceTypeSafe (st : String) : String :=
  jsTrim (if st == "" then "oneway" else st)

/-- Source: `isReturnSameDay = serviceTypeSafe === 'return_same_day'`. -/
def isReturnSameDay (st : String) : Bool :=
  serviceTypeSafe st == "return_same_day"

/-- Source: `effectiveMiles = isReturnSameDay ? milesNum * 2 : milesNum`. -/
def effectiveMiles (isRsd : Bool) (milesNum : ℚ) : ℚ :=
  if isRsd then milesNum * 2 else milesNum

/-- The distance-uplift loop: first bracket with
`effectiveMiles >= b.min && effectiveMiles <= b.max` wins, else 0. -/
def bracketLookup : List Bracket → ℚ → ℚ
  | [], _ => 0
  | b :: rest, eff => if b.min ≤ eff ∧ eff ≤ b.max then b.add else bracketLookup rest eff

/-- V2.0 per-mile distance component for a given effective mileage:
`Math.max(0, effectiveMiles - 20) * P.perMileOver20`. -/
def pricingDistanceP (perMile eff : ℚ) : ℚ := max 0 (eff - 20) * perMile

/-- Schedule drive time: `(effectiveMiles / AVG_MPH) * 60` with `AVG_MPH = 30`. -/
def driveMinutesOf (eff : ℚ) : ℚ := eff / 30 * 60

/-- V2.0 total before rounding for a selected profile, effective mileage and
job time (`isBankHoliday` hard-coded `false`). -/
def profilesV2Total (P : ProfileV2) (eff : ℚ) (jobHourUTC dayOfWeekUTC : ℕ)
    (diffMinutes : ℚ) : ℚ :=
  let isBankHoliday := false
  let isUrgent := 0 ≤ diffMinutes && diffMinutes < P.urgencyMinutes
  P.baseUpTo20 + pricingDistanceP P.perMileOver20 eff + bracketLookup P.uplift eff +
  (if isUrgent then P.urgencyAdd else 0) +
  (if isAfter1700 jobHourUTC then P.after17Add else 0) +
  (if !isBankHoliday && isWeekendDay dayOfWeekUTC then P.weekendAdd else 0) +
  (if isBankHoliday then P.bankHolidayAdd else 0)

/-- V2.0 calculated price: `roundToNearest(totalBeforeRounding, P.rounding)`. -/
def profilesV2Price (P : ProfileV2) (eff : ℚ) (jobHourUTC dayOfWeekUTC : ℕ)
    (diffMinutes : ℚ) : ℚ :=
  roundToNearest (profilesV2Total P eff jobHourUTC dayOfWeekUTC diffMinutes) P.rounding

/-- PR-PROFILES-V2.0 handler: validation, miles check, profile selection,
effective-miles manual-quote rejection, date gate, then profile pricing. -/
def profilesV2Handler (r : Req) : HandlerResult :=
  if missingV11 r then .missingFields
  else
    match r.milesParsed with
    | none => .invalidMiles
    | some m =>
      if m ≤ 0 then .invalidMiles
      else
        let stSafe := serviceTypeSafe r.serviceType
        let P := getPricingProfileV2 r.industry stSafe
        let eff := effectiveMiles (stSafe == "return_same_day") m
        if P.manualQuoteMiles ≤ eff then .manualQuote P.manualQuoteMiles
        else if !r.dateValid then .invalidDate
        else .ok (profilesV2Price P eff r.jobHourUTC r.dayOfWeekUTC r.diffMinutes)

/-- V3.0 total before rounding (adds the immediate-delivery uplift). -/
def profilesV3Total (P : ProfileV3) (eff : ℚ) (jobHourUTC dayOfWeekUTC : ℕ)
    (diffMinutes : ℚ) (isImmediate : Bool) : ℚ :=
  let isBankHoliday := false
  let isUrgent := 0 ≤ diffMinutes && diffMinutes < P.urgencyMinutes
  P.baseUpTo20 + pricingDistanceP P.perMileOver20 eff + bracketLookup P.uplift eff +
  (if isUrgent then P.urgencyAdd else 0) +
  (if isAfter1700 jobHourUTC then P.after17Add else 0) +
  (if !isBankHoliday && isWeekendDay dayOfWeekUTC then P.weekendAdd else 0) +
  (if isBankHoliday then P.bankHolidayAdd else 0) +
  (if isImmediate then P.immediateAdd else 0)

/-- V3.0 calculated price. -/
def profilesV3Price (P : ProfileV3) (eff : ℚ) (jobHourUTC dayOfWeekUTC : ℕ)
    (diffMinutes : ℚ) (isImmediate : Bool) : ℚ :=
  roundToNearest (profilesV3Total P eff jobHourUTC dayOfWeekUTC diffMinutes isImmediate) P.rounding

/-- PR-PROFILES-V3.0 handler. -/
def profilesV3Handler (r : Req) : HandlerResult :=
  if missingV11 r then .missingFields
  else
    match r.milesParsed with
    | none => .invalidMiles
    | some m =>
      if m ≤ 0 then .invalidMiles
      else
        let stSafe := serviceTypeSafe r.serviceType
        let P := getPricingProfileV3 r.industry stSafe
        let eff := effectiveMiles (stSafe == "return_same_day") m
        if P.manualQuoteMiles ≤ eff then .manualQuote P.manualQuoteMiles
        else if !r.dateValid then .invalidDate
        else .ok (profilesV3Price P eff r.jobHourUTC r.dayOfWeekUTC r.diffMinutes
                    r.immediateDelivery)

/-- The four places the profile handlers consume mileage: the per-mile charge,
the distance-uplift bracket, the manual-quote comparison, and the schedule
drive-time — all computed from the same `effectiveMiles` value. -/
structure DistanceUsage where
  perMileCharge : ℚ
  distanceUplift : ℚ
  manualQuoteHit : Bool
  driveMinutes : ℚ
deriving DecidableEq, Repr

/-- The V2.0 handler's four mileage consumers, as functions of the submitted
one-way miles and the service type (mirroring the handler's wiring through
`effectiveMiles`). -/
def distanceUsageV2 (P : ProfileV2) (st : String) (milesNum : ℚ) : DistanceUsage :=
  let eff := effectiveMiles (isReturnSameDay st) milesNum
  { perMileCharge := pricingDistanceP P.perMileOver20 eff
    distanceUplift := bracketLookup P.uplift eff
    manualQuoteHit := decide (P.manualQuoteMiles ≤ eff)
    driveMinutes := driveMinutesOf eff }

/-- The V3.0 handler's four mileage consumers. -/
def distanceUsageV3 (P : ProfileV3) (st : String) (milesNum : ℚ) : DistanceUsage :=
  let eff := effectiveMiles (isReturnSameDay st) milesNum
  { perMileCharge := pricingDistanceP P.perMileOver20 eff
    distanceUplift := bracketLookup P.uplift eff
    manualQuoteHit := decide (P.manualQuoteMiles ≤ eff)
    driveMinutes := driveMinutesOf eff }

/-! ## Availability handlers -/

/-- An availability request after body destructuring (missing fields are `""`). -/
structure AvailReq where
  pickup : String
  dropoff : String
  miles : String
  email : String
  whenDate : String
  whenTime : String
deriving DecidableEq, Repr

/-- Source: `!pickup || !dropoff || !miles || !email || !whenDate || !whenTime`. -/
def missingAvail (r : AvailReq) : Bool :=
  r.pickup == "" || r.dropoff == "" || r.miles == "" || r.email == "" ||
  r.whenDate == "" || r.whenTime == ""

/-- Strict availability handler (`src/api/availability`, first document):
500 when the Make URL env var is missing, 400 on missing fields, 502 when the
Make response does not parse to a JSON object with a boolean `available`
(`makeParsed = none`, which also covers a thrown fetch via the outer catch),
200 passing the parsed object through otherwise. -/
def strictAvailabilityStatus (urlConfigured : Bool) (r : AvailReq)
    (makeParsed : Option Bool) : ℕ :=
  if !urlConfigured then 500
  else if missingAvail r then 400
  else
    match makeParsed with
    | none => 502
    | some _ => 200

/-- Friendly availability handler (`src/unnamed/part_002`): every non-POST
failure path — missing env URL, missing fields, invalid date window, malformed
or unavailable Make response, or a thrown fetch — returns HTTP 200 with
`available:false` and the uniform customer message; only a Make response with
`available:true` yields `(200, true)`.  Result is `(status, available)`. -/
def friendlyAvailability (urlConfigured : Bool) (r : AvailReq) (windowOk : Bool)
    (makeParsed : Option Bool) : ℕ × Bool :=
  if !urlConfigured then (200, false)
  else if missingAvail r then (200, false)
  else if !windowOk then (200, false)
  else
    match makeParsed with
    | none => (200, false)
    | some false => (200, false)
    | some true => (200, true)

/-! ## Stripe webhook handlers

`stripe.webhooks.constructEvent(buf, sig, secret)` is library code outside the
repository; we model it as an abstract parameter
`construct : String → Option String → String → Option Event` mapping the raw
body, the optional `stripe-signature` header and a signing secret to the
parsed event when the signature verifies under that secret, and `none` when
verification throws.  The Telegram / Make fetches are modelled by their two
observable outcomes (return or throw), controlled by explicit flags. -/

/-- A Stripe event as far as handler control flow consumes it. -/
structure Event where
  type : String
  livemode : Bool
deriving DecidableEq, Repr

/-- Source: `notifyTelegram` from `src/api/stripe/webhook.js` (both documents) and
`src/unnamed/part_005`: missing env vars return early; the fetch is wrapped in
`try { ... } catch (e) { console.error(...) }`, so the function returns
normally whether or not the fetch throws. -/
def notifyTelegram (envOk fetchThrows : Bool) : Except String Unit :=
  if !envOk then .ok ()
  else
    match (if fetchThrows then (.error "telegram" : Except String Unit) else .ok ()) with
    | .ok _ => .ok ()
    | .error _ => .ok ()

/-- Source: `postToMakeCreateJob` (webhook.js, second document): missing URL returns a
`{ok:false}` object; the fetch is wrapped in try/catch returning `{ok:false}`
on exception — it never throws to the caller. -/
def postToMakeCreateJob (urlOk fetchThrows : Bool) : Except String Unit :=
  if !urlOk then .ok ()
  else
    match (if fetchThrows then (.error "make" : Except String Unit) else .ok ()) with
    | .ok _ => .ok ()
    | .error _ => .ok ()

/-- Source: `sendTelegramMessage` from `src/app/api/stripe/webhook/route.ts` (first
document) and `src/unnamed/part_007`: missing env vars return early, but the
fetch is NOT wrapped in try/catch — a rejected fetch propagates to the caller. -/
def sendTelegramNoCatch (envOk fetchThrows : Bool) : Except String Unit :=
  if !envOk then .ok ()
  else if fetchThrows then .error "telegram" else .ok ()

/-- Source: `sendTelegramMessage` from `route.ts` (second document): same helper but
with the fetch wrapped in try/catch — it never throws. -/
def sendTelegramCatch (envOk fetchThrows : Bool) : Except String Unit :=
  if !envOk then .ok ()
  else
    match (if fetchThrows then (.error "telegram" : Except String Unit) else .ok ()) with
    | .ok _ => .ok ()
    | .error _ => .ok ()

/-- The four event types `webhook.js` notifies on; the default case does
nothing. -/
def notifiedTypes : List String :=
  ["checkout.session.completed", "payment_intent.succeeded",
   "payment_intent.payment_failed", "charge.refunded"]

/-- Event processing of `webhook.js` (first document): each recognised event
type awaits `notifyTelegram`, the default case is a no-op; an uncaught throw
here would produce the 500 branch. -/
def processWebhookV1 (e : Event) (envOk fetchThrows : Bool) : Except String Unit :=
  if notifiedTypes.contains e.type then notifyTelegram envOk fetchThrows
  else .ok ()

/-- Event processing of `webhook.js` (second document): the checkout branch
additionally posts to the Make create-job webhook. -/
def processWebhookV2 (e : Event) (envOk fetchThrows makeUrlOk makeThrows : Bool) :
    Except String Unit :=
  if e.type == "checkout.session.completed" then do
    let _ ← notifyTelegram envOk fetchThrows
    let _ ← postToMakeCreateJob makeUrlOk makeThrows
    .ok ()
  else if notifiedTypes.contains e.type then notifyTelegram envOk fetchThrows
  else .ok ()

/-- Source: `webhook.js` (first document): verify against the single
`STRIPE_WEBHOOK_SECRET`; a missing secret makes `constructEvent` throw.
400 on verification failure, then 200 (or 500 on an uncaught processing
throw). -/
def webhookJsV1Status (construct : String → Option String → String → Option Event)
    (body : String) (sig : Option String) (genericSecret : Option String)
    (envOk fetchThrows : Bool) : ℕ :=
  match (match genericSecret with
         | some k => construct body sig k
         | none => none) with
  | none => 400
  | some e =>
    match processWebhookV1 e envOk fetchThrows with
    | .ok _ => 200
    | .error _ => 500

/-- The configured webhook signing secrets of `webhook.js` (second document). -/
structure Secrets where
  live : Option String
  test : Option String
  generic : Option String
deriving Repr

/-- The live → test → generic verification chain of `webhook.js` (second
document): each configured secret is tried in order inside its own
try/catch, the generic fallback's throw is caught by the outer catch; the
result is the first event that verifies. -/
def multiSecretVerify (construct : String → Option String → String → Option Event)
    (s : Secrets) (body : String) (sig : Option String) : Option Event :=
  let e1 := match s.live with
            | some k => construct body sig k
            | none => none
  let e2 := match e1 with
            | some e => some e
            | none => match s.test with
                      | some k => construct body sig k
                      | none => none
  match e2 with
  | some e => some e
  | none => match s.generic with
            | some k => construct body sig k
            | none => none

/-- Source: `webhook.js` (second document): 400 when no configured secret verifies the
payload, else process and answer 200 (`{received:true}`). -/
def webhookJsV2Status (construct : String → Option String → String → Option Event)
    (s : Secrets) (body : String) (sig : Option String)
    (envOk fetchThrows makeUrlOk makeThrows : Bool) : ℕ :=
  match multiSecretVerify construct s body sig with
  | none => 400
  | some e =>
    match processWebhookV2 e envOk fetchThrows makeUrlOk makeThrows with
    | .ok _ => 200
    | .error _ => 500

/-- Does `construct` verify the payload under an (optionally configured)
secret? -/
def secretHit (construct : String → Option String → String → Option Event)
    (body : String) (sig : Option String) : Option String → Bool
  | some k => (construct body sig k).isSome
  | none => false

/-- Source: `route.ts` `POST` (first document): a missing `stripe-signature` header is
only logged, the body is `JSON.parse`d (`parsed = none` on failure → 400), and
the event is processed WITHOUT any signature verification; the
checkout branch awaits the non-catching `sendTelegramMessage`, so a thrown
Telegram fetch reaches the outer catch and yields 500; every other parsed
payload yields 200. -/
def routeTsV1Status (sig : Option String) (parsed : Option Event)
    (envOk fetchThrows : Bool) : ℕ :=
  match parsed with
  | none => 400
  | some e =>
    if e.type == "checkout.session.completed" then
      match sendTelegramNoCatch envOk fetchThrows with
      | .ok _ => 200
      | .error _ => 500
    else 200

/-- Source: `route.ts` `POST` (second document): 400 on a missing signature header,
500 on a missing `STRIPE_WEBHOOK_SECRET`, 400 when verification under that
single secret fails, then the checkout branch awaits the catching
`sendTelegramMessage` and the handler answers 200. -/
def routeTsV2Status (construct : String → Option String → String → Option Event)
    (body : String) (sig : Option String) (secret : Option String)
    (envOk fetchThrows : Bool) : ℕ :=
  match sig with
  | none => 400
  | some s =>
    match secret with
    | none => 500
    | some k =>
      match construct body (some s) k with
      | none => 400
      | some e =>
        if e.type == "checkout.session.completed" then
          match sendTelegramCatch envOk fetchThrows with
          | .ok _ => 200
          | .error _ => 500
        else 200

/-- Source: `src/unnamed/part_007` `POST`: 400 on missing signature, 500 when either
the live or the test secret is missing, live-then-test verification (400 when
both fail), then the checkout branch awaits the NON-catching
`sendTelegramMessage` — a thrown Telegram fetch yields 500. -/
def dualTsStatus (construct : String → Option String → String → Option Event)
    (body : String) (sig : Option String) (liveSecret testSecret : Option String)
    (envOk fetchThrows : Bool) : ℕ :=
  match sig with
  | none => 400
  | some s =>
    match liveSecret, testSecret with
    | some lk, some tk =>
      match (match construct body (some s) lk with
             | some e => some e
             | none => construct body (some s) tk) with
      | none => 400
      | some e =>
        if e.type == "checkout.session.completed" then
          match sendTelegramNoCatch envOk fetchThrows with
          | .ok _ => 200
          | .error _ => 500
        else 200
    | _, _ => 500

/-! ## Distance lookup (`src/unnamed/part_003`, distance endpoint) -/

/-- Source: `miles = Math.max(1, Math.round((meters / 1609.344) * 10) / 10)`:
convert the route distance to miles, round to one decimal place, then clamp
to a minimum of 1. -/
def milesFromMeters (meters : ℚ) : ℚ :=
  max 1 ((jsRound (meters / 1609.344 * 10) : ℚ) / 10)

/-! ## Shared facts about the pricing arithmetic -/

/-- The PR-V1.0 raw price never drops below the £90 base. -/
lemma rawPriceV10_ge (m : ℚ) (hm : 0 < m) : 90 ≤ rawPriceV10 m := by
  unfold rawPriceV10 BASE_PRICE BASE_DISTANCE PER_MILE_RATE
  split
  · nlinarith
  · norm_num

/-- Rounding to the nearest 10 of a value at least 100 yields at least 10. -/
lemma jsRound_div_ten_ge (v : ℚ) (hv : 100 ≤ v) : (10 : ℤ) ≤ jsRound (v / 10) := by
  unfold jsRound
  rw [Int.le_floor]
  push_cast
  linarith

/-- The PR-V1.1 uplift sum is one of the eight sums of a subset of
{15, 20, 25}. -/
lemma plusUpliftV11_mem (h d : ℕ) (dd : ℤ) :
    plusUpliftV11 h d dd ∈ ([0, 15, 20, 25, 35, 40, 45, 60] : List ℚ) := by
  unfold plusUpliftV11
  cases hA : isAfter1700 h <;> cases hW : isWeekendDay d <;> cases hU : isUrgentV11 dd <;>
    norm_num [hA, hW, hU, UPLIFT_AFTER_1700, UPLIFT_WEEKEND, UPLIFT_URGENT, List.mem_cons]

/-- The PR-V1.1 uplift sum is a multiple of £5. -/
lemma plusUpliftV11_mul5 (h d : ℕ) (dd : ℤ) :
    ∃ k : ℤ, plusUpliftV11 h d dd = (k : ℚ) * 5 := by
  have hmem := plusUpliftV11_mem h d dd
  simp only [List.mem_cons, List.not_mem_nil, or_false] at hmem
  rcases hmem with h0 | h0 | h0 | h0 | h0 | h0 | h0 | h0 <;> rw [h0]
  exacts [⟨0, by norm_num⟩, ⟨3, by norm_num⟩, ⟨4, by norm_num⟩, ⟨5, by norm_num⟩,
    ⟨7, by norm_num⟩, ⟨8, by norm_num⟩, ⟨9, by norm_num⟩, ⟨12, by norm_num⟩]

/-- The PR-V1.1 uplift sum is nonnegative. -/
lemma plusUpliftV11_nonneg (h d : ℕ) (dd : ℤ) : 0 ≤ plusUpliftV11 h d dd := by
  unfold plusUpliftV11 UPLIFT_AFTER_1700 UPLIFT_WEEKEND UPLIFT_URGENT
  split_ifs <;> norm_num

/-- The clamped PR-V1.1 base is a multiple of £5 (both arms of the `max` are). -/
lemma baseCalculatedV11_mul5 (m : ℚ) :
    ∃ k : ℤ, baseCalculatedV11 m = (k : ℚ) * 5 := by
  refine ⟨max (jsRound (baseRawV11 m / 5)) 18, ?_⟩
  unfold baseCalculatedV11 baseWithin20
  push_cast
  rw [max_mul_of_nonneg _ _ (by norm_num : (0:ℚ) ≤ 5)]
  norm_num

/-- The clamped PR-V1.1 base is at least £90. -/
lemma baseCalculatedV11_ge (m : ℚ) : 90 ≤ baseCalculatedV11 m := by
  unfold baseCalculatedV11 baseWithin20
  exact le_max_right _ _

/-! ## C1 -/

/-- C1: in PR-V1.0 and PR-V1.1, for every finite miles input greater than 0,
the base price before rounding is the flat £90 fee when miles is at most 20,
and £90 plus £1.80 per mile over 20 when miles exceeds 20; beyond the
threshold the price accrues linearly in miles (equal increments of miles give
equal increments of £1.80 per mile). -/
theorem c1_base_plus_per_mile (m : ℚ) (hm : 0 < m) :
    (m ≤ 20 → baseRawV11 m = 90 ∧ rawPriceV10 m = 90) ∧
    (20 < m → baseRawV11 m = 90 + (m - 20) * 1.8 ∧ rawPriceV10 m = 90 + (m - 20) * 1.8) ∧
    (∀ m' : ℚ, 20 < m → 20 < m' → baseRawV11 m' - baseRawV11 m = 1.8 * (m' - m)) := by
  refine ⟨fun h => ?_, fun h => ?_, fun m' h h' => ?_⟩
  · constructor
    · simp [baseRawV11, h, baseWithin20]
    · simp [rawPriceV10, BASE_DISTANCE, BASE_PRICE, not_lt.mpr h]
  · constructor
    · simp only [baseRawV11, baseWithin20, perMileOver20, if_neg (not_le.mpr h)]
    · simp only [rawPriceV10, BASE_DISTANCE, BASE_PRICE, PER_MILE_RATE, if_pos h]
      norm_num
  · simp only [baseRawV11, baseWithin20, perMileOver20, if_neg (not_le.mpr h),
      if_neg (not_le.mpr h')]
    ring

/-- Witness for C1 at miles = 25: the hypotheses hold and the over-threshold
formula gives £99 before rounding. -/
theorem c1_witness : (0 : ℚ) < 25 ∧ rawPriceV10 25 = 99 := by
  refine ⟨by norm_num, ?_⟩
  have h := (c1_base_plus_per_mile 25 (by norm_num)).2.1 (by norm_num)
  rw [h.2]
  norm_num

/-! ## C3 -/

/-- C3: with a positive miles input, PR-V1.0's final price is a multiple of
the granularity that was applied (£5 below the £100 cutover, £10 from it) and
never drops below the £90 minimum; PR-V1.1 clamps the rounded base to at
least £90 before uplifts are added, and its final price is a multiple of the
£5 granularity and never below £90 either. -/
theorem c3_rounding_and_minimum (m : ℚ) (hm : 0 < m) :
    90 ≤ finalPriceV10 m ∧
    (rawPriceV10 m < 100 → ∃ k : ℤ, finalPriceV10 m = (k : ℚ) * 5) ∧
    (100 ≤ rawPriceV10 m → ∃ k : ℤ, finalPriceV10 m = (k : ℚ) * 10) ∧
    90 ≤ baseCalculatedV11 m ∧
    (∃ k : ℤ, baseCalculatedV11 m = (k : ℚ) * 5) ∧
    (∀ h d : ℕ, ∀ dd : ℤ,
      calculatedV11 m h d dd = baseCalculatedV11 m + plusUpliftV11 h d dd ∧
      90 ≤ calculatedV11 m h d dd ∧
      ∃ k : ℤ, calculatedV11 m h d dd = (k : ℚ) * 5) := by
  refine ⟨?_, fun hlt => ?_, fun hge => ?_, baseCalculatedV11_ge m, baseCalculatedV11_mul5 m,
    fun h d dd => ⟨rfl, ?_, ?_⟩⟩
  · unfold finalPriceV10 BASE_PRICE
    exact le_max_right _ _
  · refine ⟨max (jsRound (rawPriceV10 m / 5)) 18, ?_⟩
    unfold finalPriceV10 roundPrice BASE_PRICE
    rw [if_pos hlt]
    push_cast
    rw [max_mul_of_nonneg _ _ (by norm_num : (0:ℚ) ≤ 5)]
    norm_num
  · refine ⟨jsRound (rawPriceV10 m / 10), ?_⟩
    unfold finalPriceV10 roundPrice BASE_PRICE
    rw [if_neg (not_lt.mpr hge)]
    have h10 := jsRound_div_ten_ge (rawPriceV10 m) hge
    have : (90 : ℚ) ≤ (jsRound (rawPriceV10 m / 10) : ℚ) * 10 := by
      have : (10 : ℚ) ≤ (jsRound (rawPriceV10 m / 10) : ℚ) := by exact_mod_cast h10
      linarith
    exact max_eq_left this
  · have h1 := baseCalculatedV11_ge m
    have h2 := plusUpliftV11_nonneg h d dd
    unfold calculatedV11
    linarith
  · obtain ⟨k1, hk1⟩ := baseCalculatedV11_mul5 m
    obtain ⟨k2, hk2⟩ := plusUpliftV11_mul5 h d dd
    refine ⟨k1 + k2, ?_⟩
    unfold calculatedV11
    rw [hk1, hk2]
    push_cast
    ring

/-- Witness for C3 at miles = 27 (raw £102.60, over the £100 cutover): the
final PR-V1.0 price is £100, a multiple of £10 and at least £90. -/
theorem c3_witness :
    90 ≤ finalPriceV10 27 ∧ finalPriceV10 27 = 100 := by
  have h := c3_rounding_and_minimum 27 (by norm_num)
  refine ⟨h.1, ?_⟩
  have hraw : rawPriceV10 27 = 102.6 := by
    unfold rawPriceV10 BASE_PRICE BASE_DISTANCE PER_MILE_RATE
    norm_num
  unfold finalPriceV10 roundPrice jsRound BASE_PRICE
  rw [hraw]
  norm_num

/-! ## C4 -/

/-- C4: in PR-V1.1, for every request passing validation (fields present,
positive finite miles, valid date), the handler succeeds with price equal to
the rounded minimum-clamped base plus the plain sum of exactly those uplift
amounts (£15 after-17:00, £20 weekend, £25 urgent) whose code conditions
hold, the uplift sum being added unrounded; the uplift sum stacks additively,
taking one of the eight subset sums of {15, 20, 25}. -/
theorem c4_uplift_stacking (r : Req) (m : ℚ)
    (hf : missingV11 r = false) (hp : r.milesParsed = some m) (hm : 0 < m)
    (hd : r.dateValid = true) :
    v11Handler r =
      .ok (baseCalculatedV11 m + specUpliftSum r.jobHourUTC r.dayOfWeekUTC r.diffDays) ∧
    plusUpliftV11 r.jobHourUTC r.dayOfWeekUTC r.diffDays =
      specUpliftSum r.jobHourUTC r.dayOfWeekUTC r.diffDays ∧
    plusUpliftV11 r.jobHourUTC r.dayOfWeekUTC r.diffDays ∈
      ([0, 15, 20, 25, 35, 40, 45, 60] : List ℚ) := by
  have hsum : plusUpliftV11 r.jobHourUTC r.dayOfWeekUTC r.diffDays =
      specUpliftSum r.jobHourUTC r.dayOfWeekUTC r.diffDays := by
    unfold plusUpliftV11 specUpliftSum
    cases hA : isAfter1700 r.jobHourUTC <;> cases hW : isWeekendDay r.dayOfWeekUTC <;>
      cases hU : isUrgentV11 r.diffDays <;> simp [hA, hW, hU] <;> ring
  refine ⟨?_, hsum, plusUpliftV11_mem _ _ _⟩
  simp [v11Handler, hf, hp, hd, not_le.mpr hm, calculatedV11, hsum]

/-- Witness for C4: a concrete Saturday 18:00 same-day request at 27 miles is
accepted at £105 + £60 (all three uplifts stack, unrounded on top of the
clamped base). -/
theorem c4_witness :
    v11Handler
      { company := "Acme", industry := "Legal", serviceType := "oneway",
        immediateDelivery := false, pickup := "A", dropoff := "B", miles := "27",
        email := "a@b.c", whenDate := "2026-03-07", whenTime := "18:00",
        milesParsed := some 27, dateValid := true, jobHourUTC := 18,
        dayOfWeekUTC := 6, diffDays := 0, diffMinutes := 60 } = .ok 165 := by
  have h := (c4_uplift_stacking
    { company := "Acme", industry := "Legal", serviceType := "oneway",
      immediateDelivery := false, pickup := "A", dropoff := "B", miles := "27",
      email := "a@b.c", whenDate := "2026-03-07", whenTime := "18:00",
      milesParsed := some 27, dateValid := true, jobHourUTC := 18,
      dayOfWeekUTC := 6, diffDays := 0, diffMinutes := 60 } 27
    (by decide) rfl (by norm_num) rfl).1
  rw [h]
  have hbase : baseCalculatedV11 27 = 105 := by
    have hraw : baseRawV11 27 = 102.6 := by
      unfold baseRawV11 baseWithin20 perMileOver20
      norm_num
    unfold baseCalculatedV11 jsRound baseWithin20
    rw [hraw]
    norm_num
  have hup : specUpliftSum 18 6 0 = 60 := by
    unfold specUpliftSum isAfter1700 isWeekendDay isUrgentV11
    norm_num [UPLIFT_AFTER_1700, UPLIFT_WEEKEND, UPLIFT_URGENT]
  rw [hbase, hup]
  norm_num

/-! ## C5 -/

/-- C5: in the premium and industry-profile handlers, a validated request
whose (effective) miles reaches the selected profile's manual-quote ceiling is
rejected with the 400 manual-quote error and no price is computed, while a
request strictly below the ceiling is never rejected for manual quoting and,
when its date is valid, is priced automatically. -/
theorem c5_manual_quote_ceiling (r : Req) (m : ℚ)
    (hf : missingV11 r = false) (hp : r.milesParsed = some m) (hm : 0 < m) :
    (MANUAL_QUOTE_MILES ≤ m →
      premiumHandler r = .manualQuote MANUAL_QUOTE_MILES ∧
      statusOf (premiumHandler r) = 400) ∧
    (m < MANUAL_QUOTE_MILES →
      (∀ c, premiumHandler r ≠ .manualQuote c) ∧
      (r.dateValid = true → ∃ p, premiumHandler r = .ok p)) ∧
    ((getPricingProfileV2 r.industry (serviceTypeSafe r.serviceType)).manualQuoteMiles ≤
        effectiveMiles (serviceTypeSafe r.serviceType == "return_same_day") m →
      profilesV2Handler r =
        .manualQuote
          (getPricingProfileV2 r.industry (serviceTypeSafe r.serviceType)).manualQuoteMiles ∧
      statusOf (profilesV2Handler r) = 400) ∧
    (effectiveMiles (serviceTypeSafe r.serviceType == "return_same_day") m <
        (getPricingProfileV2 r.industry (serviceTypeSafe r.serviceType)).manualQuoteMiles →
      (∀ c, profilesV2Handler r ≠ .manualQuote c) ∧
      (r.dateValid = true → ∃ p, profilesV2Handler r = .ok p)) ∧
    ((getPricingProfileV3 r.industry (serviceTypeSafe r.serviceType)).manualQuoteMiles ≤
        effectiveMiles (serviceTypeSafe r.serviceType == "return_same_day") m →
      profilesV3Handler r =
        .manualQuote
          (getPricingProfileV3 r.industry (serviceTypeSafe r.serviceType)).manualQuoteMiles ∧
      statusOf (profilesV3Handler r) = 400) ∧
    (effectiveMiles (serviceTypeSafe r.serviceType == "return_same_day") m <
        (getPricingProfileV3 r.industry (serviceTypeSafe r.serviceType)).manualQuoteMiles →
      (∀ c, profilesV3Handler r ≠ .manualQuote c) ∧
      (r.dateValid = true → ∃ p, profilesV3Handler r = .ok p)) := by
  refine ⟨fun hc => ?_, fun hlt => ⟨?_, fun hd => ?_⟩, fun hc => ?_,
    fun hlt => ⟨?_, fun hd => ?_⟩, fun hc => ?_, fun hlt => ⟨?_, fun hd => ?_⟩⟩
  · simp [premiumHandler, statusOf, hf, hp, not_le.mpr hm, hc]
  · intro c
    simp only [premiumHandler, hf, hp, Bool.false_eq_true, if_false,
      if_neg (not_le.mpr hm), if_neg (not_le.mpr hlt)]
    split <;> simp
  · refine ⟨premiumCalculated m r.jobHourUTC r.dayOfWeekUTC r.diffMinutes, ?_⟩
    simp [premiumHandler, hf, hp, not_le.mpr hm, not_le.mpr hlt, hd]
  · simp [profilesV2Handler, statusOf, hf, hp, not_le.mpr hm, hc]
  · intro c
    simp only [profilesV2Handler, hf, hp, Bool.false_eq_true, if_false,
      if_neg (not_le.mpr hm), if_neg (not_le.mpr hlt)]
    split <;> simp
  · refine ⟨profilesV2Price (getPricingProfileV2 r.industry (serviceTypeSafe r.serviceType))
      (effectiveMiles (serviceTypeSafe r.serviceType == "return_same_day") m)
      r.jobHourUTC r.dayOfWeekUTC r.diffMinutes, ?_⟩
    simp [profilesV2Handler, hf, hp, not_le.mpr hm, not_le.mpr hlt, hd]
  · simp [profilesV3Handler, statusOf, hf, hp, not_le.mpr hm, hc]
  · intro c
    simp only [profilesV3Handler, hf, hp, Bool.false_eq_true, if_false,
      if_neg (not_le.mpr hm), if_neg (not_le.mpr hlt)]
    split <;> simp
  · refine ⟨profilesV3Price (getPricingProfileV3 r.industry (serviceTypeSafe r.serviceType))
      (effectiveMiles (serviceTypeSafe r.serviceType == "return_same_day") m)
      r.jobHourUTC r.dayOfWeekUTC r.diffMinutes r.immediateDelivery, ?_⟩
    simp [profilesV3Handler, hf, hp, not_le.mpr hm, not_le.mpr hlt, hd]

/-- Witness for C5: a validated 200-mile Legal one-way request is rejected
with the premium manual-quote error (£180 ceiling), while the V3.0 Legal
profile (240-mile ceiling) prices the same request automatically. -/
theorem c5_witness :
    premiumHandler
      { company := "Acme", industry := "Legal", serviceType := "oneway",
        immediateDelivery := false, pickup := "A", dropoff := "B", miles := "200",
        email := "a@b.c", whenDate := "2026-03-02", whenTime := "10:00",
        milesParsed := some 200, dateValid := true, jobHourUTC := 10,
        dayOfWeekUTC := 1, diffDays := 7, diffMinutes := 10000 } =
      .manualQuote MANUAL_QUOTE_MILES ∧
    (∃ p, profilesV3Handler
      { company := "Acme", industry := "Legal", serviceType := "oneway",
        immediateDelivery := false, pickup := "A", dropoff := "B", miles := "200",
        email := "a@b.c", whenDate := "2026-03-02", whenTime := "10:00",
        milesParsed := some 200, dateValid := true, jobHourUTC := 10,
        dayOfWeekUTC := 1, diffDays := 7, diffMinutes := 10000 } = .ok p) := by
  have h := c5_manual_quote_ceiling
    { company := "Acme", industry := "Legal", serviceType := "oneway",
      immediateDelivery := false, pickup := "A", dropoff := "B", miles := "200",
      email := "a@b.c", whenDate := "2026-03-02", whenTime := "10:00",
      milesParsed := some 200, dateValid := true, jobHourUTC := 10,
      dayOfWeekUTC := 1, diffDays := 7, diffMinutes := 10000 } 200
    (by decide) rfl (by norm_num)
  refine ⟨(h.1 ?_).1, (h.2.2.2.2.2 ?_).2 rfl⟩
  · unfold MANUAL_QUOTE_MILES
    norm_num
  · have hprof : getPricingProfileV3 "Legal" (serviceTypeSafe "oneway") =
        ⟨120, 2.65, [], 240, 180, 40, 35, 60, 90, 60, 10⟩ := by rfl
    have heff : effectiveMiles (serviceTypeSafe "oneway" == "return_same_day") (200 : ℚ) =
        200 := by rfl
    rw [hprof, heff]
    norm_num

/-! ## C9 -/

/-- C9: in the PR-PROFILES-V2.0 and V3.0 handlers, when the service type is
`return_same_day` the mileage feeding the per-mile charge, the distance-uplift
bracket, the manual-quote comparison and the schedule drive-time is exactly
twice the submitted one-way miles, and for any other service type it is the
submitted miles itself. -/
theorem c9_effective_miles_doubling (PV2 : ProfileV2) (PV3 : ProfileV3) (m : ℚ)
    (st : String) :
    (isReturnSameDay st = true →
      distanceUsageV2 PV2 st m =
        { perMileCharge := max 0 (2 * m - 20) * PV2.perMileOver20
          distanceUplift := bracketLookup PV2.uplift (2 * m)
          manualQuoteHit := decide (PV2.manualQuoteMiles ≤ 2 * m)
          driveMinutes := 2 * m / 30 * 60 } ∧
      distanceUsageV3 PV3 st m =
        { perMileCharge := max 0 (2 * m - 20) * PV3.perMileOver20
          distanceUplift := bracketLookup PV3.uplift (2 * m)
          manualQuoteHit := decide (PV3.manualQuoteMiles ≤ 2 * m)
          driveMinutes := 2 * m / 30 * 60 }) ∧
    (isReturnSameDay st = false →
      distanceUsageV2 PV2 st m =
        { perMileCharge := max 0 (m - 20) * PV2.perMileOver20
          distanceUplift := bracketLookup PV2.uplift m
          manualQuoteHit := decide (PV2.manualQuoteMiles ≤ m)
          driveMinutes := m / 30 * 60 } ∧
      distanceUsageV3 PV3 st m =
        { perMileCharge := max 0 (m - 20) * PV3.perMileOver20
          distanceUplift := bracketLookup PV3.uplift m
          manualQuoteHit := decide (PV3.manualQuoteMiles ≤ m)
          driveMinutes := m / 30 * 60 }) := by
  constructor
  · intro hr
    constructor <;>
      simp [distanceUsageV2, distanceUsageV3, effectiveMiles, hr, pricingDistanceP,
        driveMinutesOf, mul_comm]
  · intro hr
    constructor <;>
      simp [distanceUsageV2, distanceUsageV3, effectiveMiles, hr, pricingDistanceP,
        driveMinutesOf]

/-- Witness for C9: with the V2.0 base profile, a 30-mile return-same-day job
is priced on 60 effective miles — its schedule drive time is 120 minutes and
its manual-quote check compares 60 against the ceiling. -/
theorem c9_witness :
    (distanceUsageV2 BASE_PRICING_V2 "return_same_day" 30).driveMinutes = 120 ∧
    (distanceUsageV2 BASE_PRICING_V2 "return_same_day" 30).manualQuoteHit = false := by
  have h := ((c9_effective_miles_doubling BASE_PRICING_V2 BASE_PRICING_V3 30
    "return_same_day").1 (by rfl)).1
  rw [h]
  constructor
  · norm_num
  · simp only [BASE_PRICING_V2, decide_eq_false_iff_not, not_le]
    norm_num

/-! ## C10 -/

/-- C10: the distance endpoint's returned mileage is the route distance
converted to miles and rounded to one decimal place whenever that rounded
value is at least 1, it is never less than 1, and for rounded values below 1
(routes shorter than about a mile) it reports exactly 1. -/
theorem c10_min_one_mile (meters : ℚ) :
    1 ≤ milesFromMeters meters ∧
    (1 ≤ (jsRound (meters / 1609.344 * 10) : ℚ) / 10 →
      milesFromMeters meters = (jsRound (meters / 1609.344 * 10) : ℚ) / 10) ∧
    ((jsRound (meters / 1609.344 * 10) : ℚ) / 10 < 1 → milesFromMeters meters = 1) := by
  unfold milesFromMeters
  exact ⟨le_max_left _ _, fun h => max_eq_right h, fun h => max_eq_left (le_of_lt h)⟩

/-- Witness for C10 at 3218.688 meters (exactly two miles): the endpoint
reports 2.0, and the 1-mile floor holds. -/
theorem c10_witness : 1 ≤ milesFromMeters 3218.688 ∧ milesFromMeters 3218.688 = 2 := by
  have h := c10_min_one_mile 3218.688
  have hr : (jsRound (3218.688 / 1609.344 * 10) : ℚ) / 10 = 2 := by
    unfold jsRound
    norm_num
  refine ⟨h.1, ?_⟩
  rw [h.2.1 (by rw [hr]; norm_num), hr]

/-! ## Webhook control-flow facts -/

/-- The catching Telegram helper of `webhook.js` always returns normally. -/
lemma notifyTelegram_ok (envOk fetchThrows : Bool) :
    notifyTelegram envOk fetchThrows = .ok () := by
  unfold notifyTelegram
  cases envOk <;> cases fetchThrows <;> rfl

/-- The Make create-job post always returns normally. -/
lemma postToMakeCreateJob_ok (urlOk fetchThrows : Bool) :
    postToMakeCreateJob urlOk fetchThrows = .ok () := by
  unfold postToMakeCreateJob
  cases urlOk <;> cases fetchThrows <;> rfl

/-- The catching Telegram helper of `route.ts` (second document) always
returns normally. -/
lemma sendTelegramCatch_ok (envOk fetchThrows : Bool) :
    sendTelegramCatch envOk fetchThrows = .ok () := by
  unfold sendTelegramCatch
  cases envOk <;> cases fetchThrows <;> rfl

/-- Event processing in `webhook.js` (first document) never throws. -/
lemma processWebhookV1_ok (e : Event) (envOk fetchThrows : Bool) :
    processWebhookV1 e envOk fetchThrows = .ok () := by
  unfold processWebhookV1
  split
  · exact notifyTelegram_ok _ _
  · rfl

/-- Event processing in `webhook.js` (second document) never throws. -/
lemma processWebhookV2_ok (e : Event) (envOk fetchThrows makeUrlOk makeThrows : Bool) :
    processWebhookV2 e envOk fetchThrows makeUrlOk makeThrows = .ok () := by
  unfold processWebhookV2
  split
  · rw [notifyTelegram_ok, postToMakeCreateJob_ok]
    rfl
  · split
    · exact notifyTelegram_ok _ _
    · rfl

/-- The multi-secret chain verifies exactly when some configured secret
verifies the payload. -/
lemma multiSecretVerify_isSome
    (construct : String → Option String → String → Option Event)
    (s : Secrets) (body : String) (sig : Option String) :
    (multiSecretVerify construct s body sig).isSome =
      (secretHit construct body sig s.live || secretHit construct body sig s.test ||
       secretHit construct body sig s.generic) := by
  rcases s with ⟨l, t, g⟩
  unfold multiSecretVerify secretHit
  cases l with
  | none =>
    cases t with
    | none =>
      cases g with
      | none => rfl
      | some k => cases hc : construct body sig k <;> simp [hc]
    | some k =>
      cases hc : construct body sig k with
      | none =>
        cases g with
        | none => simp [hc]
        | some k2 => cases hc2 : construct body sig k2 <;> simp [hc, hc2]
      | some e => simp [hc]
  | some k =>
    cases hc : construct body sig k with
    | none =>
      cases t with
      | none =>
        cases g with
        | none => simp [hc]
        | some k2 => cases hc2 : construct body sig k2 <;> simp [hc, hc2]
      | some k2 =>
        cases hc2 : construct body sig k2 with
        | none =>
          cases g with
          | none => simp [hc, hc2]
          | some k3 => cases hc3 : construct body sig k3 <;> simp [hc, hc2, hc3]
        | some e => simp [hc, hc2]
    | some e => simp [hc]

/-- The dual-secret `webhook.js` handler's status is 200 when the chain
verifies, 400 otherwise. -/
lemma webhookJsV2Status_eq
    (construct : String → Option String → String → Option Event)
    (s : Secrets) (body : String) (sig : Option String)
    (envOk fetchThrows makeUrlOk makeThrows : Bool) :
    webhookJsV2Status construct s body sig envOk fetchThrows makeUrlOk makeThrows =
      if (multiSecretVerify construct s body sig).isSome then 200 else 400 := by
  unfold webhookJsV2Status
  cases hv : multiSecretVerify construct s body sig <;> simp [hv, processWebhookV2_ok]

/-! ## C2 -/

/-- C2 (amended): the verifying webhook handlers answer 200 exactly on
payloads that verify under a configured secret and 400 otherwise — for the
single-secret `webhook.js` under its generic secret, and for the dual-secret
`webhook.js` under the live, test or generic secret — but the first `route.ts`
variant performs no signature verification at all: it answers 200 to every
JSON-parsable payload (shown here with the Telegram fetch succeeding)
independent of the signature header. -/
theorem c2_webhook_signature (construct : String → Option String → String → Option Event)
    (s : Secrets) (body : String) (sig g : Option String)
    (envOk fetchThrows makeUrlOk makeThrows : Bool) (e : Event) :
    (webhookJsV1Status construct body sig g envOk fetchThrows = 200 ↔
      secretHit construct body sig g = true) ∧
    (webhookJsV1Status construct body sig g envOk fetchThrows = 400 ↔
      secretHit construct body sig g = false) ∧
    (webhookJsV2Status construct s body sig envOk fetchThrows makeUrlOk makeThrows = 200 ↔
      (secretHit construct body sig s.live || secretHit construct body sig s.test ||
       secretHit construct body sig s.generic) = true) ∧
    (webhookJsV2Status construct s body sig envOk fetchThrows makeUrlOk makeThrows = 400 ↔
      (secretHit construct body sig s.live || secretHit construct body sig s.test ||
       secretHit construct body sig s.generic) = false) ∧
    routeTsV1Status sig (some e) envOk false = 200 := by
  have hv2 := webhookJsV2Status_eq construct s body sig envOk fetchThrows makeUrlOk makeThrows
  rw [multiSecretVerify_isSome] at hv2
  refine ⟨?_, ?_, ?_, ?_, ?_⟩
  · cases g with
    | none => simp [webhookJsV1Status, secretHit]
    | some k =>
      cases hc : construct body sig k <;>
        simp [webhookJsV1Status, secretHit, hc, processWebhookV1_ok]
  · cases g with
    | none => simp [webhookJsV1Status, secretHit]
    | some k =>
      cases hc : construct body sig k <;>
        simp [webhookJsV1Status, secretHit, hc, processWebhookV1_ok]
  · rw [hv2]
    cases h : (secretHit construct body sig s.live || secretHit construct body sig s.test ||
      secretHit construct body sig s.generic) <;> simp
  · rw [hv2]
    cases h : (secretHit construct body sig s.live || secretHit construct body sig s.test ||
      secretHit construct body sig s.generic) <;> simp
  · have hs : sendTelegramNoCatch envOk false = .ok () := by cases envOk <;> rfl
    simp only [routeTsV1Status]
    cases h : (e.type == "checkout.session.completed") <;> simp [h, hs]

/-- Counterexample to C2 as stated: the first `route.ts` webhook variant
answers 200 to a JSON-parsable payload carrying no signature header at all
(hence verifying under no configured secret), instead of 400. -/
theorem c2_counterexample :
    routeTsV1Status none (some ⟨"checkout.session.completed", false⟩) false false = 200 ∧
    (200 : ℕ) ≠ 400 := by
  exact ⟨rfl, by decide⟩

/-! ## C8 -/

/-- C8 (amended): for the webhook handlers whose Telegram helper wraps its
fetch in try/catch — both `webhook.js` variants and the second `route.ts`
variant — the HTTP response is identical whether the Telegram fetch succeeds
or throws; the first `route.ts` variant and `part_007`, whose helper does not
catch, are excluded (see the counterexample). -/
theorem c8_telegram_independence
    (construct : String → Option String → String → Option Event)
    (s : Secrets) (body : String) (sig g secret2 : Option String)
    (envOk makeUrlOk makeThrows t1 t2 : Bool) :
    webhookJsV1Status construct body sig g envOk t1 =
      webhookJsV1Status construct body sig g envOk t2 ∧
    webhookJsV2Status construct s body sig envOk t1 makeUrlOk makeThrows =
      webhookJsV2Status construct s body sig envOk t2 makeUrlOk makeThrows ∧
    routeTsV2Status construct body sig secret2 envOk t1 =
      routeTsV2Status construct body sig secret2 envOk t2 := by
  refine ⟨?_, ?_, ?_⟩
  · cases g with
    | none => rfl
    | some k =>
      cases hc : construct body sig k <;>
        simp [webhookJsV1Status, hc, processWebhookV1_ok]
  · rw [webhookJsV2Status_eq, webhookJsV2Status_eq]
  · cases sig with
    | none => rfl
    | some sg =>
      cases secret2 with
      | none => rfl
      | some k =>
        cases hc : construct body (some sg) k <;>
          simp [routeTsV2Status, hc, sendTelegramCatch_ok]

/-- Counterexample to C8 as stated: in `part_007` (dual-secret route handler,
whose `sendTelegramMessage` has no try/catch), a successfully verified
`checkout.session.completed` event is answered 500 when the Telegram fetch
throws and 200 when it succeeds — the response is not independent of the
notification outcome. -/
theorem c8_counterexample :
    dualTsStatus
      (fun _ _ k => if k == "L" then some ⟨"checkout.session.completed", true⟩ else none)
      "payload" (some "sig") (some "L") (some "T") true true = 500 ∧
    dualTsStatus
      (fun _ _ k => if k == "L" then some ⟨"checkout.session.completed", true⟩ else none)
      "payload" (some "sig") (some "L") (some "T") true false = 200 ∧
    (500 : ℕ) ≠ 200 := by
  exact ⟨rfl, rfl, by decide⟩

/-! ## C6 -/

/-- Counterexample to C6 as stated: the Google-Routes checkout variant
(`src/api/checkout/create-session.js`) does not round to a £5/£10 granularity
— at 21 miles on a weekday at 10:00 it charges £92, which is a multiple of
neither £5 nor £10 (its `roundUp` works in whole £1 steps). -/
theorem c6_counterexample :
    createSessionTotal 21 10 2 = 92 ∧
    (¬ ∃ k : ℤ, createSessionTotal 21 10 2 = (k : ℚ) * 5) ∧
    (¬ ∃ k : ℤ, createSessionTotal 21 10 2 = (k : ℚ) * 10) := by
  have h92 : createSessionTotal 21 10 2 = 92 := by
    have hp : priceForMiles 21 = 91.8 := by
      unfold priceForMiles
      norm_num
    have ht : timeSurchargeFactor 10 = 1.00 := by rfl
    have hw : weekendFactor 2 = 1.0 := by rfl
    have hceil : (⌈(459 : ℚ) / 5⌉ : ℤ) = 92 := by
      rw [Int.ceil_eq_iff] <;> norm_num
    unfold createSessionTotal roundUp jsCeil
    rw [hp, ht, hw]
    norm_num [hceil]
  refine ⟨h92, fun hx => ?_, fun hx => ?_⟩
  · obtain ⟨k, hk⟩ := hx
    rw [h92] at hk
    have hi : k * 5 = 92 := by exact_mod_cast hk.symm
    omega
  · obtain ⟨k, hk⟩ := hx
    rw [h92] at hk
    have hi : k * 10 = 92 := by exact_mod_cast hk.symm
    omega

/-- C6 (amended): the premium and industry-profile variants round to their
configured £5/£10 granularity (premium to £5; each V2.0 and V3.0 profile to
its `rounding` field), only charge per-mile beyond the 20-mile threshold
(the premium and profile per-mile components vanish at or below 20 (effective)
miles), and enforce a manual-quote cutoff (premium at 180 miles, each profile
handler at its profile's ceiling on effective miles); the PR-V1.0/V1.1 family
and the Google-Routes variant apply the 20-mile threshold but the
Google-Routes variant rounds UP to the nearest whole £1 (its total is the
exact ceiling of the surcharged price), and the earliest flat variant charges
£90 with no distance logic at all. -/
theorem c6_rounding_by_variant (m dm : ℚ) (hour day : ℕ) (imm : Bool) (r : Req)
    (hm : 0 < m) (hf : missingV11 r = false) (hp : r.milesParsed = some m)
    (hpick : (r.pickup == "") = false) (hdrop : (r.dropoff == "") = false)
    (hmail : (r.email == "") = false) :
    (∃ k : ℤ, premiumCalculated m hour day dm = (k : ℚ) * 5) ∧
    (m ≤ 20 → pricingDistancePremium m = 0) ∧
    (180 ≤ m → premiumHandler r = .manualQuote 180) ∧
    (∀ P : ProfileV2, ∀ eff : ℚ, P.rounding ≠ 0 →
      ∃ k : ℤ, profilesV2Price P eff hour day dm = (k : ℚ) * P.rounding) ∧
    (∀ P : ProfileV3, ∀ eff : ℚ, P.rounding ≠ 0 →
      ∃ k : ℤ, profilesV3Price P eff hour day dm imm = (k : ℚ) * P.rounding) ∧
    (∀ perMile eff : ℚ, eff ≤ 20 → pricingDistanceP perMile eff = 0) ∧
    ((getPricingProfileV2 r.industry (serviceTypeSafe r.serviceType)).manualQuoteMiles ≤
        effectiveMiles (serviceTypeSafe r.serviceType == "return_same_day") m →
      profilesV2Handler r =
        .manualQuote
          (getPricingProfileV2 r.industry (serviceTypeSafe r.serviceType)).manualQuoteMiles) ∧
    ((getPricingProfileV3 r.industry (serviceTypeSafe r.serviceType)).manualQuoteMiles ≤
        effectiveMiles (serviceTypeSafe r.serviceType == "return_same_day") m →
      profilesV3Handler r =
        .manualQuote
          (getPricingProfileV3 r.industry (serviceTypeSafe r.serviceType)).manualQuoteMiles) ∧
    (priceForMiles m * timeSurchargeFactor hour * weekendFactor day ≤
      createSessionTotal m hour day) ∧
    (createSessionTotal m hour day <
      priceForMiles m * timeSurchargeFactor hour * weekendFactor day + 1) ∧
    (∃ k : ℤ, createSessionTotal m hour day = (k : ℚ)) ∧
    (m ≤ 20 → priceForMiles m = 90) ∧
    flatHandler r = .ok 90 := by
  have hcs : createSessionTotal m hour day =
      ((⌈priceForMiles m * timeSurchargeFactor hour * weekendFactor day⌉ : ℤ) : ℚ) := by
    unfold createSessionTotal roundUp jsCeil
    norm_num
  refine ⟨?_, fun h20 => ?_, fun hc => ?_, fun P eff hne => ?_, fun P eff hne => ?_,
    fun perMile eff h20 => ?_, fun hc => ?_, fun hc => ?_, ?_, ?_, ?_, fun h20 => ?_, ?_⟩
  · refine ⟨jsRound (premiumTotalBeforeRounding m hour day dm / 5), ?_⟩
    unfold premiumCalculated roundToNearest
    norm_num
  · unfold pricingDistancePremium
    rw [max_eq_left (by linarith : m - 20 ≤ 0), zero_mul]
  · simp [premiumHandler, hf, hp, not_le.mpr hm, MANUAL_QUOTE_MILES, hc]
  · refine ⟨jsRound (profilesV2Total P eff hour day dm / P.rounding), ?_⟩
    unfold profilesV2Price roundToNearest
    rw [if_neg hne]
  · refine ⟨jsRound (profilesV3Total P eff hour day dm imm / P.rounding), ?_⟩
    unfold profilesV3Price roundToNearest
    rw [if_neg hne]
  · unfold pricingDistanceP
    rw [max_eq_left (by linarith : eff - 20 ≤ 0), zero_mul]
  · simp [profilesV2Handler, hf, hp, not_le.mpr hm, hc]
  · simp [profilesV3Handler, hf, hp, not_le.mpr hm, hc]
  · rw [hcs]
    exact Int.le_ceil _
  · rw [hcs]
    exact Int.ceil_lt_add_one _
  · exact ⟨⌈priceForMiles m * timeSurchargeFactor hour * weekendFactor day⌉, hcs⟩
  · unfold priceForMiles
    rw [if_pos h20]
  · simp [flatHandler, hpick, hdrop, hmail]

/-- Witness for the amended C6 at a validated 200-mile request: the premium
variant rejects for manual quoting while the flat variant still charges £90. -/
theorem c6_witness :
    premiumHandler
      { company := "Acme", industry := "Legal", serviceType := "oneway",
        immediateDelivery := false, pickup := "A", dropoff := "B", miles := "200",
        email := "a@b.c", whenDate := "2026-03-02", whenTime := "10:00",
        milesParsed := some 200, dateValid := true, jobHourUTC := 10,
        dayOfWeekUTC := 1, diffDays := 7, diffMinutes := 10000 } = .manualQuote 180 ∧
    flatHandler
      { company := "Acme", industry := "Legal", serviceType := "oneway",
        immediateDelivery := false, pickup := "A", dropoff := "B", miles := "200",
        email := "a@b.c", whenDate := "2026-03-02", whenTime := "10:00",
        milesParsed := some 200, dateValid := true, jobHourUTC := 10,
        dayOfWeekUTC := 1, diffDays := 7, diffMinutes := 10000 } = .ok 90 := by
  have h := c6_rounding_by_variant 200 0 10 1 false
    { company := "Acme", industry := "Legal", serviceType := "oneway",
      immediateDelivery := false, pickup := "A", dropoff := "B", miles := "200",
      email := "a@b.c", whenDate := "2026-03-02", whenTime := "10:00",
      milesParsed := some 200, dateValid := true, jobHourUTC := 10,
      dayOfWeekUTC := 1, diffDays := 7, diffMinutes := 10000 }
    (by norm_num) (by decide) rfl (by decide) (by decide) (by decide)
  exact ⟨h.2.2.1 (by norm_num), h.2.2.2.2.2.2.2.2.2.2.2.2⟩

/-! ## C7 -/

/-- Counterexample to C7 as stated: the friendly availability variant
(`src/unnamed/part_002`) answers a request with a missing `pickup` field with
HTTP 200 (and `available:false` plus the uniform slot-unavailable message),
not 400. -/
theorem c7_counterexample :
    friendlyAvailability true
      { pickup := "", dropoff := "Depot B", miles := "12", email := "a@b.c",
        whenDate := "2026-03-02", whenTime := "10:00" } true (some true) = (200, false) ∧
    (200 : ℕ) ≠ 400 := by
  exact ⟨rfl, by decide⟩

/-- C7 (amended): the strict availability handler and every checkout handler
answer a request with a missing required field with HTTP 400 and a JSON error;
the friendly availability variant alone deliberately answers HTTP 200 with
`available:false` and the uniform slot-unavailable message. -/
theorem c7_missing_fields (r : AvailReq) (rq : Req) (mp : Option Bool) (u w : Bool)
    (hmiss : missingAvail r = true) (hv11 : missingV11 rq = true)
    (hv10 : missingV10 rq = true) :
    strictAvailabilityStatus true r mp = 400 ∧
    statusOf (v10Handler rq) = 400 ∧
    statusOf (v11Handler rq) = 400 ∧
    statusOf (premiumHandler rq) = 400 ∧
    statusOf (profilesV2Handler rq) = 400 ∧
    statusOf (profilesV3Handler rq) = 400 ∧
    friendlyAvailability u r w mp = (200, false) := by
  refine ⟨?_, ?_, ?_, ?_, ?_, ?_, ?_⟩
  · simp [strictAvailabilityStatus, hmiss]
  · simp [v10Handler, statusOf, hv10]
  · simp [v11Handler, statusOf, hv11]
  · simp [premiumHandler, statusOf, hv11]
  · simp [profilesV2Handler, statusOf, hv11]
  · simp [profilesV3Handler, statusOf, hv11]
  · cases u <;> simp [friendlyAvailability, hmiss]

/-- Witness for the amended C7: a request with an empty pickup field gets 400
from the strict availability handler and 200/available-false from the
friendly one. -/
theorem c7_witness :
    strictAvailabilityStatus true
      { pickup := "", dropoff := "Depot B", miles := "12", email := "a@b.c",
        whenDate := "2026-03-02", whenTime := "10:00" } (some true) = 400 ∧
    friendlyAvailability true
      { pickup := "", dropoff := "Depot B", miles := "12", email := "a@b.c",
        whenDate := "2026-03-02", whenTime := "10:00" } true (some true) = (200, false) := by
  have h := c7_missing_fields
    { pickup := "", dropoff := "Depot B", miles := "12", email := "a@b.c",
      whenDate := "2026-03-02", whenTime := "10:00" }
    { company := "", industry := "", serviceType := "oneway",
      immediateDelivery := false, pickup := "", dropoff := "", miles := "",
      email := "", whenDate := "", whenTime := "", milesParsed := none,
      dateValid := false, jobHourUTC := 0, dayOfWeekUTC := 0, diffDays := 0,
      diffMinutes := 0 } (some true) true true
    (by decide) (by decide) (by decide)
  exact ⟨h.1, h.2.2.2.2.2.2⟩

end Gilead
